import Mathlib

set_option linter.unusedVariables false

/-!
Formal model of the nodriver proxy sidecar server
(`infra/nodriver-proxy/server.py`).

The server is modelled as pure functions over explicit state:

* `NodriverProxy` is the object state: whether `self.browser` holds a live
  handle (Python truthiness of the attribute) and the configured per-request
  timeout in seconds.
* `RenderEnv` is an oracle for one request's interaction with the browser
  engine and the event loop: which exceptions `browser.get`, `tab.sleep` and
  `tab.get_content` raise (if any), and at which `await` point — if any — the
  `asyncio.wait_for` deadline expires.  When the deadline expires while an
  await inside `fetch_page` is pending, the task is cancelled there; the
  `finally` block still runs, so the tab is closed, and `wait_for` raises
  `asyncio.TimeoutError` in `handle_proxy`.
* `fetch_page` returns a `FetchTrace`: the task outcome together with the
  observable effects (was a tab opened, how many times `tab.close` was
  awaited, which sleeps completed and for how long, in seconds as exact
  rationals).
* `handle_proxy` returns a `HandlerOutcome`: the HTTP response plus the
  arguments of the `fetch_page` call when one was made, and its trace.
* Python `int(...)` on the `wait` query parameter is modelled by `pyInt`
  for ASCII strings: surrounding ASCII whitespace stripped, an optional
  single sign, then a nonempty digit run in which single underscores may
  separate digits.
-/

namespace NodriverProxyServer

/-! ## Python `int` parsing (the `wait` query parameter) -/

/-- ASCII whitespace stripped by Python's `int()` from both ends of its
argument (space, tab, newline, carriage return, vertical tab, form feed). -/
def isPySpace (c : Char) : Bool :=
  c == ' ' || c == '\t' || c == '\n' || c == '\r' ||
    c == Char.ofNat 11 || c == Char.ofNat 12

/-- Continuation of a digit run as accepted by Python `int()`: after a first
digit, further digits follow, with single underscores allowed between two
digits.  `acc` is the decimal value accumulated so far. -/
def pyDigitsAux (acc : Nat) : List Char → Option Nat
  | [] => some acc
  | c :: cs =>
    if c.isDigit then pyDigitsAux (10 * acc + (c.toNat - 48)) cs
    else if c == '_' then
      match cs with
      | [] => none
      | d :: cs2 =>
        if d.isDigit then pyDigitsAux (10 * acc + (d.toNat - 48)) cs2 else none
    else none

/-- Nonempty digit run: the first character must be a digit. -/
def pyDigits : List Char → Option Nat
  | [] => none
  | c :: cs => if c.isDigit then pyDigitsAux (c.toNat - 48) cs else none

/-- Model of Python `int(s)` for ASCII strings: strip surrounding ASCII
whitespace, allow one optional `+`/`-` sign, then a nonempty underscore-
separated digit run.  `none` models `ValueError`. -/
def pyInt (s : String) : Option Int :=
  let cs := ((s.toList.dropWhile isPySpace).reverse.dropWhile isPySpace).reverse
  match cs with
  | '+' :: rest => (pyDigits rest).map (fun n => (n : Int))
  | '-' :: rest => (pyDigits rest).map (fun n => -(n : Int))
  | _ => (pyDigits cs).map (fun n => (n : Int))

/-! ## Data model -/

/-- An HTTP response as produced by `aiohttp.web.Response`: status code, body
text and content type.  `web.Response(text=...)` defaults to status 200 and
content type `text/plain` unless overridden. -/
structure HttpResponse where
  status : Nat
  body : String
  contentType : String
deriving DecidableEq

/-- Outcome of one `fetch_page` task run under `asyncio.wait_for`:
normal return of `(html, status)`, `asyncio.TimeoutError` raised by
`wait_for`, or any other exception (carrying `str(exc)`). -/
inductive FetchResult where
  | ok (html : String) (status : Nat)
  | timeout
  | error (msg : String)
deriving DecidableEq

/-- Observable trace of one `fetch_page` call: its outcome, whether a tab
(RenderContext) was opened via `browser.get`, how many times `tab.close` was
awaited, and the durations (in seconds) of the sleeps that ran to
completion. -/
structure FetchTrace where
  result : FetchResult
  tabOpened : Bool
  tabCloses : Nat
  sleeps : List Rat
deriving DecidableEq

/-- Outcome of `tab.get_content`: either an exception or the rendered HTML. -/
inductive ContentOutcome where
  | raises (msg : String)
  | returns (html : String)
deriving DecidableEq

/-- Oracle for the browser engine and the per-request deadline during one
`fetch_page` call.  `cancelAt = some k` means the `asyncio.wait_for` deadline
expires while the k-th await of `fetch_page` is pending (0 = `browser.get`,
1 = `tab.sleep`, 2 = `tab.get_content`, 3 = `tab.close`); `none` means the
task finishes before the deadline.  `getErr` / `sleepErr` are exceptions
raised by `browser.get` / `tab.sleep` (message only), `contentResult` is the
outcome of `tab.get_content`. -/
structure RenderEnv where
  cancelAt : Option Nat
  getErr : Option String
  sleepErr : Option String
  contentResult : ContentOutcome
deriving DecidableEq

/-- The `NodriverProxy` object's state: Python truthiness of `self.browser`
(a live `nodriver.Browser` handle or `None`) and the configured per-request
timeout in seconds. -/
structure NodriverProxy where
  browser : Bool
  timeout : Nat
deriving DecidableEq

/-- `DEFAULT_PORT = 9222`. -/
def DEFAULT_PORT : Nat := 9222

/-- `DEFAULT_TIMEOUT = 10` (seconds). -/
def DEFAULT_TIMEOUT : Nat := 10

/-- `NodriverProxy.__init__`: `self.browser = None`, `self.timeout = timeout`. -/
def NodriverProxy.init (timeout : Nat) : NodriverProxy :=
  { browser := false, timeout := timeout }

/-- `start_browser`: `self.browser = await nodriver.start(...)` — the handle
becomes truthy. -/
def start_browser (p : NodriverProxy) : NodriverProxy :=
  { p with browser := true }

/-- `stop_browser`: `if self.browser: self.browser.stop(); self.browser = None`.
A no-op when the browser was never started. -/
def stop_browser (p : NodriverProxy) : NodriverProxy :=
  if p.browser then { p with browser := false } else p

/-! ## fetch_page -/

/-- Duration in seconds of the single `tab.sleep` executed by `fetch_page`'s
try-block: `wait_ms / 1000` when `wait_ms` is truthy (`if wait_ms:` — i.e.
not `None` and nonzero), else the default 1-second settle delay. -/
def sleepDur (wait_ms : Option Int) : Rat :=
  match wait_ms with
  | some n => if n = 0 then 1 else (n : Rat) / 1000
  | none => 1

/-- The try-block of `fetch_page`: `tab.sleep`, then `tab.get_content`.
Returns the inner result together with the list of completed sleeps. -/
def fetch_body (env : RenderEnv) (wait_ms : Option Int) : FetchResult × List Rat :=
  if env.cancelAt = some 1 then (.timeout, [])
  else
    match env.sleepErr with
    | some m => (.error m, [])
    | none =>
      if env.cancelAt = some 2 then (.timeout, [sleepDur wait_ms])
      else
        match env.contentResult with
        | .raises m => (.error m, [sleepDur wait_ms])
        | .returns html => (.ok html 200, [sleepDur wait_ms])

/-- `fetch_page(url, wait_ms)` as run under `asyncio.wait_for(..., timeout)`:
raise `RuntimeError("Browser not started")` when `self.browser` is falsy;
open a new tab with `browser.get(url, new_tab=True)`; then run the try-block
and, in `finally`, await `tab.close()` exactly once — also when the try-block
raised or the task was cancelled by the deadline.  A deadline expiring during
`browser.get` cancels the task before any tab exists. -/
def fetch_page (p : NodriverProxy) (env : RenderEnv) (url : String)
    (wait_ms : Option Int) : FetchTrace :=
  if !p.browser then
    { result := .error "Browser not started", tabOpened := false,
      tabCloses := 0, sleeps := [] }
  else if env.cancelAt = some 0 then
    { result := .timeout, tabOpened := false, tabCloses := 0, sleeps := [] }
  else
    match env.getErr with
    | some m =>
      { result := .error m, tabOpened := false, tabCloses := 0, sleeps := [] }
    | none =>
      { result :=
          if env.cancelAt = some 3 then FetchResult.timeout
          else (fetch_body env wait_ms).1,
        tabOpened := true, tabCloses := 1, sleeps := (fetch_body env wait_ms).2 }

/-! ## handle_proxy and handle_health -/

/-- Python truthiness of `request.query.get(...)`: `None` and the empty
string are falsy. -/
def strTruthy : Option String → Bool
  | none => false
  | some s => !(s == "")

/-- The query parameters of one request, as read through
`request.query.get("url")` and `request.query.get("wait")`. -/
structure Query where
  url : Option String
  wait : Option String
deriving DecidableEq

/-- What one `handle_proxy` invocation did: the HTTP response, the arguments
`(url, wait_ms)` of the `fetch_page` call when one was made (`none` when
validation failed before rendering), and that call's trace. -/
structure HandlerOutcome where
  response : HttpResponse
  fetchCall : Option (String × Option Int)
  trace : Option FetchTrace
deriving DecidableEq

/-- Response for a missing or empty `url` query parameter. -/
def missingUrlOutcome : HandlerOutcome where
  response :=
    { status := 400, body := "Missing required query parameter: url",
      contentType := "text/plain" }
  fetchCall := none
  trace := none

/-- Response for a nonempty `wait` query parameter that `int()` rejects. -/
def invalidWaitOutcome : HandlerOutcome where
  response :=
    { status := 400, body := "Invalid wait parameter", contentType := "text/plain" }
  fetchCall := none
  trace := none

/-- The `try`/`except` around `asyncio.wait_for(self.fetch_page(...))` in
`handle_proxy`: a normal result becomes a response with the fetched status,
the HTML body and content type `text/html`; `asyncio.TimeoutError` becomes
504 `Proxy timeout`; any other exception becomes 502
`Proxy request failed: <exc>`. -/
def runFetch (p : NodriverProxy) (env : RenderEnv) (url : String)
    (wait_ms : Option Int) : HandlerOutcome :=
  { response :=
      match (fetch_page p env url wait_ms).result with
      | .ok html status =>
        { status := status, body := html, contentType := "text/html" }
      | .timeout =>
        { status := 504, body := "Proxy timeout", contentType := "text/plain" }
      | .error m =>
        { status := 502, body := "Proxy request failed: " ++ m,
          contentType := "text/plain" },
    fetchCall := some (url, wait_ms),
    trace := some (fetch_page p env url wait_ms) }

/-- `handle_proxy`: reject a falsy `url` with 400; a truthy `wait` parameter
must parse as an integer, otherwise 400 (a falsy — absent or empty — `wait`
leaves `wait_ms = None`); then run the fetch under the deadline and map its
outcome to a response. -/
def handle_proxy (p : NodriverProxy) (env : RenderEnv) (q : Query) : HandlerOutcome :=
  if !(strTruthy q.url) then missingUrlOutcome
  else
    let target_url := q.url.getD ""
    match q.wait with
    | none => runFetch p env target_url none
    | some w =>
      if !(strTruthy (some w)) then runFetch p env target_url none
      else
        match pyInt w with
        | none => invalidWaitOutcome
        | some n => runFetch p env target_url (some n)

/-- `handle_health`: 200 `ok` when `self.browser` is truthy, else 503
`browser not ready`.  It only reads the state (it takes the proxy state and
returns just a response). -/
def handle_health (p : NodriverProxy) : HttpResponse :=
  if p.browser then { status := 200, body := "ok", contentType := "text/plain" }
  else { status := 503, body := "browser not ready", contentType := "text/plain" }

/-! ## Sample inputs used by witnesses and counterexamples -/

/-- A proxy whose browser has been started, with the default timeout. -/
def pReady : NodriverProxy := { browser := true, timeout := DEFAULT_TIMEOUT }

/-- An environment in which the whole render path succeeds and the deadline
never fires, with `tab.get_content` returning the given HTML. -/
def envOk (html : String) : RenderEnv :=
  { cancelAt := none, getErr := none, sleepErr := none,
    contentResult := .returns html }

/-- An environment in which the deadline expires while the tab sleep is
pending: a tab was opened, the render never finishes. -/
def envTimeoutAtSleep : RenderEnv :=
  { cancelAt := some 1, getErr := none, sleepErr := none,
    contentResult := .returns "<html></html>" }

/-- An environment in which `browser.get` raises: no tab is ever opened. -/
def envGetFails : RenderEnv :=
  { cancelAt := none, getErr := some "connection failed", sleepErr := none,
    contentResult := .returns "<html></html>" }

/-! ## Helper lemmas -/

/-- The `finally` of `fetch_page`: the tab close count is 1 exactly when a
tab was opened, 0 otherwise, on every path. -/
theorem fetch_page_close_inv (p : NodriverProxy) (env : RenderEnv) (url : String)
    (w : Option Int) :
    (fetch_page p env url w).tabCloses
      = if (fetch_page p env url w).tabOpened then 1 else 0 := by
  unfold fetch_page
  split
  · rfl
  · split
    · rfl
    · split <;> rfl

/-- `runFetch` records the trace of exactly the `fetch_page` call it ran. -/
theorem runFetch_trace (p : NodriverProxy) (env : RenderEnv) (url : String)
    (w : Option Int) :
    (runFetch p env url w).trace = some (fetch_page p env url w) := rfl

/-- A timed-out fetch maps to the 504 response. -/
theorem runFetch_response_timeout (p : NodriverProxy) (env : RenderEnv)
    (url : String) (w : Option Int)
    (h : (fetch_page p env url w).result = .timeout) :
    (runFetch p env url w).response
      = { status := 504, body := "Proxy timeout", contentType := "text/plain" } := by
  simp [runFetch, h]

/-- A failed fetch maps to the 502 response carrying the cause message. -/
theorem runFetch_response_error (p : NodriverProxy) (env : RenderEnv)
    (url : String) (w : Option Int) (m : String)
    (h : (fetch_page p env url w).result = .error m) :
    (runFetch p env url w).response
      = { status := 502, body := "Proxy request failed: " ++ m,
          contentType := "text/plain" } := by
  simp [runFetch, h]

/-- The try-block can only finish with a timeout, an error, or HTML with
status 200. -/
theorem fetch_body_fst_cases (env : RenderEnv) (w : Option Int) :
    (fetch_body env w).1 = .timeout ∨
      (∃ m, (fetch_body env w).1 = .error m) ∨
      ∃ html, (fetch_body env w).1 = .ok html 200 := by
  unfold fetch_body
  split
  · exact Or.inl rfl
  · split
    · exact Or.inr (Or.inl ⟨_, rfl⟩)
    · split
      · exact Or.inl rfl
      · split
        · exact Or.inr (Or.inl ⟨_, rfl⟩)
        · exact Or.inr (Or.inr ⟨_, rfl⟩)

/-- `fetch_page` can only finish with a timeout, an error, or HTML with
status 200. -/
theorem fetch_page_result_cases (p : NodriverProxy) (env : RenderEnv)
    (url : String) (w : Option Int) :
    (fetch_page p env url w).result = .timeout ∨
      (∃ m, (fetch_page p env url w).result = .error m) ∨
      ∃ html, (fetch_page p env url w).result = .ok html 200 := by
  unfold fetch_page
  split
  · exact Or.inr (Or.inl ⟨_, rfl⟩)
  · split
    · exact Or.inl rfl
    · split
      · exact Or.inr (Or.inl ⟨_, rfl⟩)
      · show (if env.cancelAt = some 3 then FetchResult.timeout
            else (fetch_body env w).1) = _ ∨ _ ∨ _
        split
        · exact Or.inl rfl
        · exact fetch_body_fst_cases env w

/-- The status in the 200-family response is always exactly 200. -/
theorem fetch_page_ok_status (p : NodriverProxy) (env : RenderEnv) (url : String)
    (w : Option Int) (html : String) (s : Nat)
    (h : (fetch_page p env url w).result = .ok html s) : s = 200 := by
  rcases fetch_page_result_cases p env url w with hc | ⟨m, hc⟩ | ⟨h2, hc⟩ <;>
    rw [hc] at h
  · exact FetchResult.noConfusion h
  · exact FetchResult.noConfusion h
  · exact (FetchResult.ok.injEq .. ▸ h).2.symm ▸ rfl

/-- `runFetch` never answers 400. -/
theorem runFetch_status_ne_400 (p : NodriverProxy) (env : RenderEnv)
    (url : String) (w : Option Int) :
    (runFetch p env url w).response.status ≠ 400 := by
  rcases fetch_page_result_cases p env url w with hc | ⟨m, hc⟩ | ⟨h2, hc⟩ <;>
    simp [runFetch, hc]

/-- A falsy `url` parameter short-circuits `handle_proxy`. -/
theorem handle_proxy_missing_url (p : NodriverProxy) (env : RenderEnv) (q : Query)
    (h : strTruthy q.url = false) :
    handle_proxy p env q = missingUrlOutcome := by
  simp [handle_proxy, h]

/-- With a truthy `url` and no `wait` parameter, the fetch runs with
`wait_ms = None`. -/
theorem handle_proxy_wait_none (p : NodriverProxy) (env : RenderEnv) (q : Query)
    (u : String) (hu : q.url = some u) (hne : u ≠ "") (hw : q.wait = none) :
    handle_proxy p env q = runFetch p env u none := by
  simp [handle_proxy, hu, hw, strTruthy, hne]

/-- With a truthy `url` and an empty (falsy) `wait` parameter, the fetch also
runs with `wait_ms = None`: the parameter is never parsed. -/
theorem handle_proxy_wait_empty (p : NodriverProxy) (env : RenderEnv) (q : Query)
    (u : String) (hu : q.url = some u) (hne : u ≠ "") (hw : q.wait = some "") :
    handle_proxy p env q = runFetch p env u none := by
  simp [handle_proxy, hu, hw, strTruthy, hne]

/-- With a truthy `url` and a nonempty `wait` that `int()` accepts, the fetch
runs with the parsed value. -/
theorem handle_proxy_wait_parsed (p : NodriverProxy) (env : RenderEnv) (q : Query)
    (u w : String) (n : Int) (hu : q.url = some u) (hne : u ≠ "")
    (hw : q.wait = some w) (hwne : w ≠ "") (hp : pyInt w = some n) :
    handle_proxy p env q = runFetch p env u (some n) := by
  simp [handle_proxy, hu, hw, strTruthy, hne, hwne, hp]

/-- With a truthy `url` and a nonempty `wait` that `int()` rejects, the
request is rejected with the invalid-wait response. -/
theorem handle_proxy_wait_invalid (p : NodriverProxy) (env : RenderEnv) (q : Query)
    (u w : String) (hu : q.url = some u) (hne : u ≠ "")
    (hw : q.wait = some w) (hwne : w ≠ "") (hp : pyInt w = none) :
    handle_proxy p env q = invalidWaitOutcome := by
  simp [handle_proxy, hu, hw, strTruthy, hne, hwne, hp]

/-- `handle_proxy` either rejects the input without a fetch (trace `none`) or
is exactly a `runFetch` call. -/
theorem handle_proxy_trace_cases (p : NodriverProxy) (env : RenderEnv) (q : Query) :
    (handle_proxy p env q).trace = none ∨
      ∃ u w, handle_proxy p env q = runFetch p env u w := by
  unfold handle_proxy
  split
  · exact Or.inl rfl
  · split
    · exact Or.inr ⟨_, _, rfl⟩
    · split
      · exact Or.inr ⟨_, _, rfl⟩
      · split
        · exact Or.inl rfl
        · exact Or.inr ⟨_, _, rfl⟩

/-- On a fully successful render, `fetch_page` returns the HTML with status
200, after one completed sleep, with the tab opened and closed once. -/
theorem fetch_page_success (p : NodriverProxy) (env : RenderEnv) (url : String)
    (w : Option Int) (html : String) (hb : p.browser = true)
    (hc : env.cancelAt = none) (hg : env.getErr = none) (hs : env.sleepErr = none)
    (hr : env.contentResult = .returns html) :
    fetch_page p env url w
      = { result := .ok html 200, tabOpened := true, tabCloses := 1,
          sleeps := [sleepDur w] } := by
  simp [fetch_page, fetch_body, hb, hc, hg, hs, hr]

/-- The empty string is not a valid Python integer literal. -/
theorem pyInt_empty : pyInt "" = none := rfl

/-- A string that `pyInt` accepts is nonempty. -/
theorem pyInt_some_ne_empty (w : String) (n : Int) (hp : pyInt w = some n) :
    w ≠ "" := by
  intro hwe
  subst hwe
  rw [pyInt_empty] at hp
  exact Option.noConfusion hp

/-! ## Claims -/

/-- C1: for every request in which a RenderContext (tab) is opened, the
context is closed exactly once before the handler returns — and this holds
on every exit path alike: successful render, failure during the wait or
content-extraction steps, and deadline expiry. -/
theorem render_context_closed_exactly_once (p : NodriverProxy) (env : RenderEnv)
    (q : Query) (t : FetchTrace)
    (h : (handle_proxy p env q).trace = some t) (hopen : t.tabOpened = true) :
    t.tabCloses = 1 := by
  rcases handle_proxy_trace_cases p env q with hn | ⟨u, w, heq⟩
  · rw [hn] at h
    exact Option.noConfusion h
  · rw [heq, runFetch_trace] at h
    have ht : t = fetch_page p env u w := (Option.some_inj.mp h).symm
    subst ht
    rw [fetch_page_close_inv, hopen]
    rfl

/-- Witness for C1: a concrete successful render in which the tab was opened,
closed exactly once. -/
theorem render_context_closed_exactly_once_witness :
    ({ result := .ok "<html></html>" 200, tabOpened := true, tabCloses := 1,
        sleeps := [(1 : Rat)] } : FetchTrace).tabCloses = 1 :=
  render_context_closed_exactly_once pReady (envOk "<html></html>")
    { url := some "https://example.com", wait := none }
    { result := .ok "<html></html>" 200, tabOpened := true, tabCloses := 1,
      sleeps := [(1 : Rat)] } (by decide) (by decide)

/-- C2: every valid request (truthy url, wait absent, empty or parseable)
whose render completes before the deadline without error gets status 200,
body equal to the rendered HTML and content type text/html. -/
theorem success_returns_rendered_html (p : NodriverProxy) (env : RenderEnv)
    (q : Query) (u html : String)
    (hb : p.browser = true) (hu : q.url = some u) (hne : u ≠ "")
    (hw : q.wait = none ∨ q.wait = some "" ∨
      ∃ w n, q.wait = some w ∧ pyInt w = some n)
    (hc : env.cancelAt = none) (hg : env.getErr = none) (hs : env.sleepErr = none)
    (hr : env.contentResult = .returns html) :
    (handle_proxy p env q).response
      = { status := 200, body := html, contentType := "text/html" } := by
  have key : ∀ wm, (runFetch p env u wm).response
      = { status := 200, body := html, contentType := "text/html" } := by
    intro wm
    simp [runFetch, fetch_page_success p env u wm html hb hc hg hs hr]
  rcases hw with hw | hw | ⟨w, n, hw, hp⟩
  · rw [handle_proxy_wait_none p env q u hu hne hw]
    exact key none
  · rw [handle_proxy_wait_empty p env q u hu hne hw]
    exact key none
  · rw [handle_proxy_wait_parsed p env q u w n hu hne hw
      (pyInt_some_ne_empty w n hp) hp]
    exact key (some n)

/-- Witness for C2: a concrete request rendered successfully. -/
theorem success_returns_rendered_html_witness :
    (handle_proxy pReady (envOk "<html><body>Hello</body></html>")
        { url := some "https://example.com", wait := some "250" }).response
      = { status := 200, body := "<html><body>Hello</body></html>",
          contentType := "text/html" } :=
  success_returns_rendered_html pReady (envOk "<html><body>Hello</body></html>")
    { url := some "https://example.com", wait := some "250" }
    "https://example.com" "<html><body>Hello</body></html>"
    (by decide) (by decide) (by decide)
    (Or.inr (Or.inr ⟨"250", 250, by decide, by decide⟩))
    (by decide) (by decide) (by decide) (by decide)

/-- C3: whenever the render path runs and the deadline expires, the response
is 504 with body Proxy timeout. -/
theorem timeout_returns_504 (p : NodriverProxy) (env : RenderEnv) (q : Query)
    (t : FetchTrace) (h : (handle_proxy p env q).trace = some t)
    (ht : t.result = .timeout) :
    (handle_proxy p env q).response
      = { status := 504, body := "Proxy timeout", contentType := "text/plain" } := by
  rcases handle_proxy_trace_cases p env q with hn | ⟨u, w, heq⟩
  · rw [hn] at h
    exact Option.noConfusion h
  · rw [heq, runFetch_trace] at h
    have ht2 : t = fetch_page p env u w := (Option.some_inj.mp h).symm
    rw [heq]
    exact runFetch_response_timeout p env u w (by rw [← ht2]; exact ht)

/-- Witness for C3: a concrete request whose deadline expires during the
settle sleep. -/
theorem timeout_returns_504_witness :
    (handle_proxy pReady envTimeoutAtSleep
        { url := some "https://example.com", wait := none }).response
      = { status := 504, body := "Proxy timeout", contentType := "text/plain" } :=
  timeout_returns_504 pReady envTimeoutAtSleep
    { url := some "https://example.com", wait := none }
    { result := .timeout, tabOpened := true, tabCloses := 1, sleeps := [] }
    (by decide) (by decide)

/-- C4: whenever the render path runs and fails for any reason other than
the deadline — navigation error, engine exception, or the browser not being
started — the response is 502 with body
`Proxy request failed: <cause>` containing the cause message; the error is
caught and turned into a response (handle_proxy is total). -/
theorem render_failure_returns_502 (p : NodriverProxy) (env : RenderEnv)
    (q : Query) (t : FetchTrace) (m : String)
    (h : (handle_proxy p env q).trace = some t) (he : t.result = .error m) :
    (handle_proxy p env q).response
      = { status := 502, body := "Proxy request failed: " ++ m,
          contentType := "text/plain" } := by
  rcases handle_proxy_trace_cases p env q with hn | ⟨u, w, heq⟩
  · rw [hn] at h
    exact Option.noConfusion h
  · rw [heq, runFetch_trace] at h
    have ht2 : t = fetch_page p env u w := (Option.some_inj.mp h).symm
    rw [heq]
    exact runFetch_response_error p env u w m (by rw [← ht2]; exact he)

/-- Witness for C4: a concrete request whose navigation step raises. -/
theorem render_failure_returns_502_witness :
    (handle_proxy pReady envGetFails
        { url := some "https://example.com", wait := none }).response
      = { status := 502, body := "Proxy request failed: connection failed",
          contentType := "text/plain" } :=
  render_failure_returns_502 pReady envGetFails
    { url := some "https://example.com", wait := none }
    { result := .error "connection failed", tabOpened := false, tabCloses := 0,
      sleeps := [] } "connection failed" (by decide) (by decide)

/-- C5: a request with absent or empty url is answered 400
`Missing required query parameter: url`, no fetch is attempted, regardless of
the other parameters (the wait parameter is never even looked at). -/
theorem missing_url_returns_400 (p : NodriverProxy) (env : RenderEnv) (q : Query)
    (h : q.url = none ∨ q.url = some "") :
    (handle_proxy p env q).response
        = { status := 400, body := "Missing required query parameter: url",
            contentType := "text/plain" } ∧
      (handle_proxy p env q).fetchCall = none ∧
      (handle_proxy p env q).trace = none := by
  have hst : strTruthy q.url = false := by
    rcases h with h | h <;> simp [h, strTruthy]
  rw [handle_proxy_missing_url p env q hst]
  exact ⟨rfl, rfl, rfl⟩

/-- Witness for C5: no url together with an invalid wait parameter is still
rejected for the missing url. -/
theorem missing_url_returns_400_witness :
    (handle_proxy pReady (envOk "<html></html>")
          { url := none, wait := some "abc" }).response
        = { status := 400, body := "Missing required query parameter: url",
            contentType := "text/plain" } ∧
      (handle_proxy pReady (envOk "<html></html>")
          { url := none, wait := some "abc" }).fetchCall = none ∧
      (handle_proxy pReady (envOk "<html></html>")
          { url := none, wait := some "abc" }).trace = none :=
  missing_url_returns_400 pReady (envOk "<html></html>")
    { url := none, wait := some "abc" } (Or.inl (by decide))

/-- Counterexample to C6 as stated: a present-but-empty wait parameter is not
a valid integer (`int("")` raises), yet the request is not rejected — the
render is attempted with `wait_ms = None` and the handler answers 200. -/
theorem empty_wait_not_rejected_cex :
    pyInt "" = none ∧
      (handle_proxy pReady (envOk "<html></html>")
          { url := some "https://example.com", wait := some "" }).fetchCall
        = some ("https://example.com", none) ∧
      (handle_proxy pReady (envOk "<html></html>")
          { url := some "https://example.com", wait := some "" }).response.status
        = 200 :=
  ⟨by decide, by decide, by decide⟩

/-- C6 (amended): a request with a truthy url and a wait parameter that is
present, nonempty and not a valid integer is answered 400
`Invalid wait parameter` and no render is attempted; a present-but-empty
wait is instead treated like an absent one. -/
theorem nonempty_invalid_wait_returns_400 (p : NodriverProxy) (env : RenderEnv)
    (q : Query) (u w : String)
    (hu : q.url = some u) (hne : u ≠ "") (hw : q.wait = some w) (hwne : w ≠ "")
    (hp : pyInt w = none) :
    (handle_proxy p env q).response
        = { status := 400, body := "Invalid wait parameter",
            contentType := "text/plain" } ∧
      (handle_proxy p env q).fetchCall = none ∧
      (handle_proxy p env q).trace = none := by
  rw [handle_proxy_wait_invalid p env q u w hu hne hw hwne hp]
  exact ⟨rfl, rfl, rfl⟩

/-- Witness for C6 (amended): wait=abc is rejected without a render. -/
theorem nonempty_invalid_wait_returns_400_witness :
    (handle_proxy pReady (envOk "<html></html>")
          { url := some "https://example.com", wait := some "abc" }).response
        = { status := 400, body := "Invalid wait parameter",
            contentType := "text/plain" } ∧
      (handle_proxy pReady (envOk "<html></html>")
          { url := some "https://example.com", wait := some "abc" }).fetchCall
        = none ∧
      (handle_proxy pReady (envOk "<html></html>")
          { url := some "https://example.com", wait := some "abc" }).trace
        = none :=
  nonempty_invalid_wait_returns_400 pReady (envOk "<html></html>")
    { url := some "https://example.com", wait := some "abc" }
    "https://example.com" "abc" (by decide) (by decide) (by decide) (by decide)
    (by decide)

/-- Counterexample to C7 as stated: wait=-5 parses as the negative integer
-5, the request is not rejected (it answers 200), and the negative value is
passed to the render path. -/
theorem negative_wait_accepted_cex :
    pyInt "-5" = some (-5) ∧
      (handle_proxy pReady (envOk "<html></html>")
          { url := some "https://example.com", wait := some "-5" }).fetchCall
        = some ("https://example.com", some (-5)) ∧
      (handle_proxy pReady (envOk "<html></html>")
          { url := some "https://example.com", wait := some "-5" }).response.status
        = 200 :=
  ⟨by decide, by decide, by decide⟩

/-- C7 (amended): the wait parameter is validated only as an integer; every
wait that parses to a negative integer is accepted — the request is never
answered with a 400 — and the negative value is passed unchanged as wait_ms
to the render path. -/
theorem negative_wait_passed_to_fetch (p : NodriverProxy) (env : RenderEnv)
    (q : Query) (u w : String) (n : Int)
    (hu : q.url = some u) (hne : u ≠ "") (hw : q.wait = some w)
    (hp : pyInt w = some n) (hneg : n < 0) :
    (handle_proxy p env q).fetchCall = some (u, some n) ∧
      (handle_proxy p env q).response.status ≠ 400 := by
  rw [handle_proxy_wait_parsed p env q u w n hu hne hw
    (pyInt_some_ne_empty w n hp) hp]
  exact ⟨rfl, runFetch_status_ne_400 p env u (some n)⟩

/-- Witness for C7 (amended): wait=-5 reaches fetch_page as -5 and the
response is not a 400. -/
theorem negative_wait_passed_to_fetch_witness :
    (handle_proxy pReady (envOk "<html></html>")
          { url := some "https://example.com", wait := some "-5" }).fetchCall
        = some ("https://example.com", some (-5)) ∧
      (handle_proxy pReady (envOk "<html></html>")
          { url := some "https://example.com", wait := some "-5" }).response.status
        ≠ 400 :=
  negative_wait_passed_to_fetch pReady (envOk "<html></html>")
    { url := some "https://example.com", wait := some "-5" }
    "https://example.com" "-5" (-5) (by decide) (by decide) (by decide)
    (by decide) (by decide)

/-- Counterexample to C8 as stated: wait=0 is a supplied wait, so the claim
demands a sleep of 0/1000 = 0 seconds, but the render path sleeps the default
1 second (`if wait_ms:` is falsy at 0). -/
theorem zero_wait_sleeps_default_cex :
    pyInt "0" = some 0 ∧
      (handle_proxy pReady (envOk "<html></html>")
          { url := some "https://example.com", wait := some "0" }).trace.map
        FetchTrace.sleeps = some [(1 : Rat)] ∧
      (1 : Rat) ≠ (0 : Rat) / 1000 :=
  ⟨by decide, by decide, by norm_num⟩

/-- C8 (amended): on a successful render, the path sleeps wait_ms/1000
seconds when wait was supplied and parsed to a nonzero integer, and sleeps
the default 1 second when wait is absent (a zero or empty wait also gets the
1-second default). -/
theorem sleep_duration_spec (p : NodriverProxy) (env : RenderEnv)
    (u w html : String) (n : Int)
    (hb : p.browser = true) (hc : env.cancelAt = none) (hg : env.getErr = none)
    (hs : env.sleepErr = none) (hr : env.contentResult = .returns html)
    (hne : u ≠ "") (hp : pyInt w = some n) (hn : n ≠ 0) :
    (handle_proxy p env { url := some u, wait := some w }).trace.map
        FetchTrace.sleeps = some [(n : Rat) / 1000] ∧
      (handle_proxy p env { url := some u, wait := none }).trace.map
        FetchTrace.sleeps = some [(1 : Rat)] := by
  constructor
  · rw [handle_proxy_wait_parsed p env { url := some u, wait := some w } u w n
        rfl hne rfl (pyInt_some_ne_empty w n hp) hp,
      runFetch_trace, fetch_page_success p env u (some n) html hb hc hg hs hr]
    simp [sleepDur, hn]
  · rw [handle_proxy_wait_none p env { url := some u, wait := none } u rfl hne
        rfl,
      runFetch_trace, fetch_page_success p env u none html hb hc hg hs hr]
    simp [sleepDur]

/-- Witness for C8 (amended): wait=3000 sleeps 3 seconds, no wait sleeps 1. -/
theorem sleep_duration_spec_witness :
    (handle_proxy pReady (envOk "<html></html>")
          { url := some "https://example.com", wait := some "3000" }).trace.map
        FetchTrace.sleeps = some [(3000 : Rat) / 1000] ∧
      (handle_proxy pReady (envOk "<html></html>")
          { url := some "https://example.com", wait := none }).trace.map
        FetchTrace.sleeps = some [(1 : Rat)] :=
  sleep_duration_spec pReady (envOk "<html></html>")
    "https://example.com" "3000" "<html></html>" 3000
    (by decide) (by decide) (by decide) (by decide) (by decide) (by decide)
    (by decide) (by decide)

/-- C9: handle_health answers 200 `ok` exactly when the browser handle is
present and 503 `browser not ready` exactly when it is not — in particular
503 on the freshly initialized proxy (before start_browser) and after
stop_browser; the probe only reads the state (it maps state to a response
without producing a new state). -/
theorem health_reflects_browser_state (p : NodriverProxy) (n : Nat) :
    ((handle_health p).status = 200 ∧ (handle_health p).body = "ok"
        ↔ p.browser = true) ∧
      ((handle_health p).status = 503 ∧
          (handle_health p).body = "browser not ready"
        ↔ p.browser = false) ∧
      handle_health (NodriverProxy.init n)
        = { status := 503, body := "browser not ready",
            contentType := "text/plain" } ∧
      handle_health (stop_browser p)
        = { status := 503, body := "browser not ready",
            contentType := "text/plain" } := by
  cases hb : p.browser <;>
    simp [handle_health, stop_browser, NodriverProxy.init, hb]

/-- C10: wait=0 parses successfully, the request is not rejected (fetch_page
is called with wait_ms = 0 and the response on a successful render is 200),
but the render path applies the default 1-second settle delay, because a
zero wait_ms is falsy just like an absent one. -/
theorem zero_wait_uses_default_delay (p : NodriverProxy) (env : RenderEnv)
    (u html : String)
    (hb : p.browser = true) (hc : env.cancelAt = none) (hg : env.getErr = none)
    (hs : env.sleepErr = none) (hr : env.contentResult = .returns html)
    (hne : u ≠ "") :
    pyInt "0" = some 0 ∧
      (handle_proxy p env { url := some u, wait := some "0" }).fetchCall
        = some (u, some 0) ∧
      (handle_proxy p env { url := some u, wait := some "0" }).response.status
        = 200 ∧
      (handle_proxy p env { url := some u, wait := some "0" }).trace.map
        FetchTrace.sleeps = some [(1 : Rat)] := by
  have h0 : pyInt "0" = some 0 := by decide
  have hpath := handle_proxy_wait_parsed p env { url := some u, wait := some "0" }
    u "0" 0 rfl hne rfl (by decide) h0
  refine ⟨h0, ?_, ?_, ?_⟩
  · rw [hpath]
    rfl
  · rw [hpath]
    simp [runFetch, fetch_page_success p env u (some 0) html hb hc hg hs hr]
  · rw [hpath, runFetch_trace,
      fetch_page_success p env u (some 0) html hb hc hg hs hr]
    simp [sleepDur]

/-- Witness for C10: a concrete successful render with wait=0 sleeping the
default 1 second. -/
theorem zero_wait_uses_default_delay_witness :
    pyInt "0" = some 0 ∧
      (handle_proxy pReady (envOk "<html></html>")
          { url := some "https://example.com", wait := some "0" }).fetchCall
        = some ("https://example.com", some 0) ∧
      (handle_proxy pReady (envOk "<html></html>")
          { url := some "https://example.com", wait := some "0" }).response.status
        = 200 ∧
      (handle_proxy pReady (envOk "<html></html>")
          { url := some "https://example.com", wait := some "0" }).trace.map
        FetchTrace.sleeps = some [(1 : Rat)] :=
  zero_wait_uses_default_delay pReady (envOk "<html></html>")
    "https://example.com" "<html></html>"
    (by decide) (by decide) (by decide) (by decide) (by decide) (by decide)

end NodriverProxyServer
